import Mathlib

/-!
Verification of the kaneo repository fragments:

* `migrateWorkspaceUserEmail` (apps/api/src/utils/migrate-workspace-user-email.ts):
  a startup routine reconciling the `workspace_member` table from an
  email-keyed reference (`user_email`) to an id-keyed one (`user_id`).
* `TaskPriorityPopover`: a UI widget changing a task's priority through an
  external update mutation.

The database is modelled as an explicit state: the `user` table as a list of
`UserRow`, the `workspace_member` table as a list of `MemberRow`, together with
two flags recording which of the `user_email` / `user_id` columns currently
exist in the schema.  Each SQL statement of the routine becomes a pure state
transformer; the sequential awaited statements become function composition, and
an error-instrumented variant threads an oracle assigning a possible database
error to each statement index.
-/

/-- A row of the `user` table: `id` (primary key) and `email`. -/
structure UserRow where
  id : String
  email : String
deriving Repr, DecidableEq

/-- A row of the `workspace_member` table.  `rowId` is the row's identity
(standing for its primary key / physical identity, used only to track rows
across the run); `user_email` and `user_id` are its nullable columns, `none`
standing for SQL NULL.  When the corresponding column is absent from the
schema the field carries `none`. -/
structure MemberRow where
  rowId : Nat
  user_email : Option String
  user_id : Option String
deriving Repr, DecidableEq

/-- The database state visible to the routine: schema flags for the two
columns of `workspace_member`, the member rows, and the `user` table. -/
structure DBState where
  hasUserEmailColumn : Bool
  hasUserIdColumn : Bool
  members : List MemberRow
  users : List UserRow
deriving Repr, DecidableEq

/-- The scalar subquery `SELECT u.id FROM "user" u WHERE u.email = e`:
the id of the user whose email is `e`, or NULL when there is none. -/
def lookupUserId (users : List UserRow) (e : String) : Option String :=
  (users.find? (fun u => u.email == e)).map (fun u => u.id)

/-- WHERE clause `user_id IS NULL AND user_email IS NOT NULL` (shared by the
UPDATE of step 3 and the orphaned-record COUNT/DELETE of step 4). -/
def orphanPred (r : MemberRow) : Bool :=
  r.user_id.isNone && r.user_email.isSome

/-- SQL condition `user_email IS NULL OR user_email = ''`. -/
def emailNullOrEmpty (r : MemberRow) : Bool :=
  match r.user_email with
  | none => true
  | some e => e == ""

/-- WHERE clause `user_id IS NULL AND (user_email IS NULL OR user_email = '')`
of step 5. -/
def nullEmailPred (r : MemberRow) : Bool :=
  r.user_id.isNone && emailNullOrEmpty r

/-- WHERE clause `user_id IS NULL` of the final sweep (step 7). -/
def nullIdPred (r : MemberRow) : Bool :=
  r.user_id.isNone

/-- The conditional DDL `ALTER TABLE workspace_member ADD COLUMN user_id text`
guarded by the `information_schema` existence check: when the column is
missing it is added, every existing row holding NULL in it. -/
def addUserIdColumn (s : DBState) : DBState :=
  if s.hasUserIdColumn then s
  else { s with hasUserIdColumn := true,
                members := s.members.map (fun r => { r with user_id := none }) }

/-- One row's effect of the UPDATE statement: rows with NULL `user_id` and
non-NULL `user_email` get `user_id` set by the correlated subquery; all other
rows are untouched. -/
def updateRow (users : List UserRow) (r : MemberRow) : MemberRow :=
  match r.user_id, r.user_email with
  | none, some e => { r with user_id := lookupUserId users e }
  | _, _ => r

/-- The UPDATE of step 3 over the whole table. -/
def applyUpdate (s : DBState) : DBState :=
  { s with members := s.members.map (updateRow s.users) }

/-- `SELECT COUNT(*) FROM workspace_member WHERE p`. -/
def countWhere (p : MemberRow → Bool) (s : DBState) : Nat :=
  (s.members.filter p).length

/-- `DELETE FROM workspace_member WHERE p`. -/
def deleteWhere (p : MemberRow → Bool) (s : DBState) : DBState :=
  { s with members := s.members.filter (fun r => !(p r)) }

/-- The count-then-delete pattern of the source: run the COUNT, and execute
the DELETE only when the count is positive. -/
def condDelete (p : MemberRow → Bool) (s : DBState) : DBState :=
  if countWhere p s > 0 then deleteWhere p s else s

/-- State after the conditional column add and the UPDATE (steps 2-3). -/
def afterStep3 (s : DBState) : DBState :=
  applyUpdate (addUserIdColumn s)

/-- State after the orphaned-record deletion (step 4). -/
def afterStep4 (s : DBState) : DBState :=
  condDelete orphanPred (afterStep3 s)

/-- State after the null/empty-email deletion (step 5). -/
def afterStep5 (s : DBState) : DBState :=
  condDelete nullEmailPred (afterStep4 s)

/-- The state reaching the final sweep: the legacy branch's result when the
`user_email` column exists, the untouched input otherwise. -/
def preSweep (s : DBState) : DBState :=
  if s.hasUserEmailColumn then afterStep5 s else s

/-- The final catch-all sweep (step 7): count rows with NULL `user_id` and
delete them when any exist. -/
def finalSweep (s : DBState) : DBState :=
  condDelete nullIdPred s

/-- Observable outcome of one run: the final state together with what each
statement did (whether the ADD COLUMN DDL ran, how many rows the UPDATE
matched, and the three reported deletion counts). -/
structure MigrationResult where
  state : DBState
  addedUserIdColumn : Bool
  updatedCount : Nat
  orphanedDeleted : Nat
  nullEmailDeleted : Nat
  finalDeleted : Nat
deriving Repr, DecidableEq

/-- The whole routine `migrateWorkspaceUserEmail`, as the source sequences it:
check for the legacy column; when present, conditionally add `user_id`, run
the correlated UPDATE, count-and-delete orphaned rows, count-and-delete
null/empty-email rows; in every case, count-and-delete remaining NULL
`user_id` rows. -/
def migrateWorkspaceUserEmail (s : DBState) : MigrationResult :=
  { state := finalSweep (preSweep s)
    addedUserIdColumn := s.hasUserEmailColumn && !s.hasUserIdColumn
    updatedCount :=
      if s.hasUserEmailColumn then countWhere orphanPred (addUserIdColumn s) else 0
    orphanedDeleted :=
      if s.hasUserEmailColumn then countWhere orphanPred (afterStep3 s) else 0
    nullEmailDeleted :=
      if s.hasUserEmailColumn then countWhere nullEmailPred (afterStep4 s) else 0
    finalDeleted := countWhere nullIdPred (preSweep s) }

example :
    (migrateWorkspaceUserEmail
      { hasUserEmailColumn := true, hasUserIdColumn := false,
        members := [⟨0, some "a@b", none⟩, ⟨1, some "x@y", none⟩, ⟨2, none, none⟩],
        users := [⟨"u1", "a@b"⟩] }).state.members = [⟨0, some "a@b", some "u1"⟩] := by
  decide

example :
    (migrateWorkspaceUserEmail
      { hasUserEmailColumn := false, hasUserIdColumn := true,
        members := [⟨0, none, some "u1"⟩, ⟨1, none, none⟩],
        users := [] }).state.members = [⟨0, none, some "u1"⟩] := by
  decide

/-! ### Helper lemmas about the step functions -/

theorem filter_all_false {α : Type} {p : α → Bool} {l : List α}
    (h : ∀ a ∈ l, p a = false) : l.filter p = [] := by
  simp
  intro b hb
  simp [h b hb]

theorem filter_all_true {α : Type} {p : α → Bool} {l : List α}
    (h : ∀ a ∈ l, p a = true) : l.filter p = l := by
  simp
  exact h

theorem map_id_of_mem {α : Type} {f : α → α} :
    ∀ {l : List α}, (∀ a ∈ l, f a = a) → l.map f = l := by
  intro l
  induction l with
  | nil => intro _; rfl
  | cons a l ih =>
    intro h
    simp [List.map, h a (by simp)]
    exact ih (fun b hb => h b (by simp [hb]))

theorem countWhere_zero_of_all_false {p : MemberRow → Bool} {s : DBState}
    (h : ∀ r ∈ s.members, p r = false) : countWhere p s = 0 := by
  simp [countWhere, filter_all_false h]

theorem condDelete_flags (p : MemberRow → Bool) (s : DBState) :
    (condDelete p s).hasUserEmailColumn = s.hasUserEmailColumn ∧
    (condDelete p s).hasUserIdColumn = s.hasUserIdColumn ∧
    (condDelete p s).users = s.users := by
  unfold condDelete deleteWhere
  split <;> exact ⟨rfl, rfl, rfl⟩

theorem condDelete_subset {p : MemberRow → Bool} {s : DBState} {r : MemberRow}
    (h : r ∈ (condDelete p s).members) : r ∈ s.members := by
  unfold condDelete deleteWhere at h
  split at h
  · exact (List.mem_filter.mp h).1
  · exact h

theorem condDelete_pred_false {p : MemberRow → Bool} {s : DBState} {r : MemberRow}
    (h : r ∈ (condDelete p s).members) : p r = false := by
  unfold condDelete deleteWhere at h
  split at h
  · have := (List.mem_filter.mp h).2
    simpa using this
  · rename_i hc
    have hz : countWhere p s = 0 := Nat.eq_zero_of_not_pos hc
    have : s.members.filter p = [] := List.length_eq_zero.mp hz
    by_contra hne
    have hp : p r = true := by
      cases hpr : p r
      · exact absurd hpr hne
      · rfl
    have : r ∈ s.members.filter p := List.mem_filter.mpr ⟨h, hp⟩
    simp_all

theorem condDelete_mem_of_false {p : MemberRow → Bool} {s : DBState} {r : MemberRow}
    (hp : p r = false) (h : r ∈ s.members) : r ∈ (condDelete p s).members := by
  unfold condDelete deleteWhere
  split
  · exact List.mem_filter.mpr ⟨h, by simp [hp]⟩
  · exact h

theorem condDelete_id_of_none {p : MemberRow → Bool} {s : DBState}
    (h : ∀ r ∈ s.members, p r = false) : condDelete p s = s := by
  unfold condDelete
  simp [countWhere_zero_of_all_false h]

/-- The combined per-row effect of steps 2-3 (the conditional column add
followed by the correlated UPDATE). -/
def step3Row (s : DBState) (r : MemberRow) : MemberRow :=
  updateRow s.users (if s.hasUserIdColumn then r else { r with user_id := none })

theorem addUserIdColumn_users (s : DBState) :
    (addUserIdColumn s).users = s.users := by
  unfold addUserIdColumn
  split <;> rfl

theorem addUserIdColumn_emailFlag (s : DBState) :
    (addUserIdColumn s).hasUserEmailColumn = s.hasUserEmailColumn := by
  unfold addUserIdColumn
  split <;> rfl

theorem addUserIdColumn_idFlag (s : DBState) :
    (addUserIdColumn s).hasUserIdColumn = true := by
  unfold addUserIdColumn
  split
  · assumption
  · rfl

theorem afterStep3_members (s : DBState) :
    (afterStep3 s).members = s.members.map (step3Row s) := by
  unfold afterStep3 applyUpdate step3Row
  rw [addUserIdColumn_users]
  unfold addUserIdColumn
  cases h : s.hasUserIdColumn
  · simp [h, List.map_map, Function.comp]
  · simp [h]

theorem afterStep3_users (s : DBState) : (afterStep3 s).users = s.users := by
  unfold afterStep3 applyUpdate
  simp [addUserIdColumn_users]

theorem afterStep3_emailFlag (s : DBState) :
    (afterStep3 s).hasUserEmailColumn = s.hasUserEmailColumn := by
  unfold afterStep3 applyUpdate
  simp [addUserIdColumn_emailFlag]

theorem afterStep3_idFlag (s : DBState) :
    (afterStep3 s).hasUserIdColumn = true := by
  unfold afterStep3 applyUpdate
  simp [addUserIdColumn_idFlag]

theorem updateRow_rowId (users : List UserRow) (r : MemberRow) :
    (updateRow users r).rowId = r.rowId := by
  obtain ⟨i, em, uid⟩ := r
  cases uid <;> cases em <;> rfl

theorem updateRow_email (users : List UserRow) (r : MemberRow) :
    (updateRow users r).user_email = r.user_email := by
  obtain ⟨i, em, uid⟩ := r
  cases uid <;> cases em <;> rfl

theorem step3Row_rowId (s : DBState) (r : MemberRow) :
    (step3Row s r).rowId = r.rowId := by
  unfold step3Row
  split <;> simp [updateRow_rowId]

theorem step3Row_email (s : DBState) (r : MemberRow) :
    (step3Row s r).user_email = r.user_email := by
  unfold step3Row
  split <;> simp [updateRow_email]

theorem lookupUserId_of_mem {users : List UserRow} {u : UserRow}
    (hm : u ∈ users) (huniq : ∀ v ∈ users, v.email = u.email → v.id = u.id) :
    lookupUserId users u.email = some u.id := by
  induction users with
  | nil => cases hm
  | cons v vs ih =>
    cases hbe : v.email == u.email with
    | true =>
      have hv : v.email = u.email := by simpa using hbe
      have hid : v.id = u.id := huniq v (List.mem_cons_self v vs) hv
      simp [lookupUserId, List.find?, hbe, hid]
    | false =>
      have hv : ¬ v.email = u.email := by simpa using hbe
      have hm' : u ∈ vs := by
        cases List.mem_cons.mp hm with
        | inl h => exact absurd (by rw [h]) hv
        | inr h => exact h
      have hrec := ih hm' (fun w hw hwe => huniq w (List.mem_cons_of_mem v hw) hwe)
      simpa [lookupUserId, List.find?, hbe] using hrec

theorem lookupUserId_none {users : List UserRow} {e : String}
    (h : ∀ u ∈ users, u.email ≠ e) : lookupUserId users e = none := by
  induction users with
  | nil => rfl
  | cons v vs ih =>
    have hbe : (v.email == e) = false := by
      simpa using h v (List.mem_cons_self v vs)
    simpa [lookupUserId, List.find?, hbe] using
      ih (fun w hw => h w (List.mem_cons_of_mem v hw))

theorem updateRow_of_some {users : List UserRow} {r : MemberRow}
    (h : r.user_id ≠ none) : updateRow users r = r := by
  obtain ⟨i, em, uid⟩ := r
  cases uid
  · exact absurd rfl h
  · cases em <;> rfl

theorem afterStep4_emailFlag (s : DBState) :
    (afterStep4 s).hasUserEmailColumn = s.hasUserEmailColumn := by
  unfold afterStep4
  rw [(condDelete_flags _ _).1, afterStep3_emailFlag]

theorem afterStep4_idFlag (s : DBState) :
    (afterStep4 s).hasUserIdColumn = true := by
  unfold afterStep4
  rw [(condDelete_flags _ _).2.1, afterStep3_idFlag]

theorem afterStep4_users (s : DBState) : (afterStep4 s).users = s.users := by
  unfold afterStep4
  rw [(condDelete_flags _ _).2.2, afterStep3_users]

theorem afterStep5_emailFlag (s : DBState) :
    (afterStep5 s).hasUserEmailColumn = s.hasUserEmailColumn := by
  unfold afterStep5
  rw [(condDelete_flags _ _).1, afterStep4_emailFlag]

theorem afterStep5_idFlag (s : DBState) :
    (afterStep5 s).hasUserIdColumn = true := by
  unfold afterStep5
  rw [(condDelete_flags _ _).2.1, afterStep4_idFlag]

theorem afterStep5_users (s : DBState) : (afterStep5 s).users = s.users := by
  unfold afterStep5
  rw [(condDelete_flags _ _).2.2, afterStep4_users]

theorem preSweep_emailFlag (s : DBState) :
    (preSweep s).hasUserEmailColumn = s.hasUserEmailColumn := by
  unfold preSweep
  split
  · rw [afterStep5_emailFlag]
  · rfl

theorem preSweep_users (s : DBState) : (preSweep s).users = s.users := by
  unfold preSweep
  split
  · rw [afterStep5_users]
  · rfl

theorem migrate_state_emailFlag (s : DBState) :
    (migrateWorkspaceUserEmail s).state.hasUserEmailColumn = s.hasUserEmailColumn := by
  show (finalSweep (preSweep s)).hasUserEmailColumn = s.hasUserEmailColumn
  unfold finalSweep
  rw [(condDelete_flags _ _).1, preSweep_emailFlag]

theorem migrate_state_users (s : DBState) :
    (migrateWorkspaceUserEmail s).state.users = s.users := by
  show (finalSweep (preSweep s)).users = s.users
  unfold finalSweep
  rw [(condDelete_flags _ _).2.2, preSweep_users]

theorem migrate_state_idFlag (s : DBState) (h : s.hasUserEmailColumn = true) :
    (migrateWorkspaceUserEmail s).state.hasUserIdColumn = true := by
  show (finalSweep (preSweep s)).hasUserIdColumn = true
  unfold finalSweep
  rw [(condDelete_flags _ _).2.1]
  unfold preSweep
  rw [if_pos h, afterStep5_idFlag]

theorem migrate_state_noNull (s : DBState) :
    ∀ r ∈ (migrateWorkspaceUserEmail s).state.members, nullIdPred r = false := by
  intro r hr
  exact condDelete_pred_false hr

theorem predicates_of_notNull {r : MemberRow} (h : nullIdPred r = false) :
    orphanPred r = false ∧ nullEmailPred r = false := by
  unfold nullIdPred at h
  exact ⟨by simp [orphanPred, h], by simp [nullEmailPred, h]⟩

/-- A state all of whose member rows carry a non-null `user_id`, and whose
`user_id` column exists, is a fixed point of every step of the routine. -/
theorem steps_fixed_of_noNull {t : DBState}
    (hid : t.hasUserIdColumn = true)
    (h : ∀ r ∈ t.members, nullIdPred r = false) :
    addUserIdColumn t = t ∧ afterStep3 t = t ∧ afterStep4 t = t ∧
    afterStep5 t = t ∧ finalSweep t = t := by
  have hadd : addUserIdColumn t = t := by
    unfold addUserIdColumn
    rw [if_pos hid]
  have h3 : afterStep3 t = t := by
    unfold afterStep3
    rw [hadd]
    unfold applyUpdate
    have : t.members.map (updateRow t.users) = t.members := by
      apply map_id_of_mem
      intro r hr
      apply updateRow_of_some
      intro hnone
      have := h r hr
      simp [nullIdPred, hnone] at this
    rw [this]
  have h4 : afterStep4 t = t := by
    unfold afterStep4
    rw [h3]
    exact condDelete_id_of_none (fun r hr => (predicates_of_notNull (h r hr)).1)
  have h5 : afterStep5 t = t := by
    unfold afterStep5
    rw [h4]
    exact condDelete_id_of_none (fun r hr => (predicates_of_notNull (h r hr)).2)
  have hF : finalSweep t = t := by
    unfold finalSweep
    exact condDelete_id_of_none h
  exact ⟨hadd, h3, h4, h5, hF⟩

/-! ### C1: no null user_id after a completed run -/

/-- C1: For every execution of the reconciliation routine that completes
without error, no row of the `workspace_member` table has a null `user_id`
afterwards: the final sweep deletes every remaining null-`user_id` row
regardless of whether the legacy-column branch ran. -/
theorem migrate_no_null_userId (s : DBState) (r : MemberRow)
    (hr : r ∈ (migrateWorkspaceUserEmail s).state.members) :
    r.user_id ≠ none := by
  intro hnone
  have := migrate_state_noNull s r hr
  simp [nullIdPred, hnone] at this

theorem migrate_no_null_userId_witness :
    (⟨0, some "a@b", some "u1"⟩ : MemberRow) ∈
      (migrateWorkspaceUserEmail
        { hasUserEmailColumn := true, hasUserIdColumn := false,
          members := [⟨0, some "a@b", none⟩, ⟨1, some "x@y", none⟩],
          users := [⟨"u1", "a@b"⟩] }).state.members ∧
    (⟨0, some "a@b", some "u1"⟩ : MemberRow).user_id ≠ none :=
  ⟨by decide,
   migrate_no_null_userId
     { hasUserEmailColumn := true, hasUserIdColumn := false,
       members := [⟨0, some "a@b", none⟩, ⟨1, some "x@y", none⟩],
       users := [⟨"u1", "a@b"⟩] }
     ⟨0, some "a@b", some "u1"⟩ (by decide)⟩

/-! ### C2: idempotence -/

/-- C2: The reconciliation routine is idempotent: for every database state,
running the routine twice in succession performs no row mutation (update or
delete) and no schema change on the second run, and the final state of the
second run equals that of the first.  The routine never drops the
`user_email` column, so on a second run the legacy branch re-runs (when the
column exists) but every statement in it matches zero rows; in particular the
final sweep (step 7) finds zero null rows. -/
theorem migrate_idempotent (s : DBState) :
    (migrateWorkspaceUserEmail (migrateWorkspaceUserEmail s).state).state =
      (migrateWorkspaceUserEmail s).state ∧
    (migrateWorkspaceUserEmail (migrateWorkspaceUserEmail s).state).addedUserIdColumn = false ∧
    (migrateWorkspaceUserEmail (migrateWorkspaceUserEmail s).state).updatedCount = 0 ∧
    (migrateWorkspaceUserEmail (migrateWorkspaceUserEmail s).state).orphanedDeleted = 0 ∧
    (migrateWorkspaceUserEmail (migrateWorkspaceUserEmail s).state).nullEmailDeleted = 0 ∧
    (migrateWorkspaceUserEmail (migrateWorkspaceUserEmail s).state).finalDeleted = 0 ∧
    (migrateWorkspaceUserEmail s).state.hasUserEmailColumn = s.hasUserEmailColumn := by
  set t := (migrateWorkspaceUserEmail s).state with ht
  have hnull : ∀ r ∈ t.members, nullIdPred r = false := migrate_state_noNull s
  have hcnt0 : ∀ p : MemberRow → Bool, (∀ r ∈ t.members, p r = false) →
      countWhere p t = 0 := fun p hp => countWhere_zero_of_all_false hp
  have horph : countWhere orphanPred t = 0 :=
    hcnt0 _ (fun r hr => (predicates_of_notNull (hnull r hr)).1)
  have hnem : countWhere nullEmailPred t = 0 :=
    hcnt0 _ (fun r hr => (predicates_of_notNull (hnull r hr)).2)
  have hnid : countWhere nullIdPred t = 0 := hcnt0 _ hnull
  have hflag : t.hasUserEmailColumn = s.hasUserEmailColumn := migrate_state_emailFlag s
  cases hem : t.hasUserEmailColumn with
  | true =>
    have hid : t.hasUserIdColumn = true := by
      have hs : s.hasUserEmailColumn = true := by
        rw [← migrate_state_emailFlag s]
        exact hem
      exact migrate_state_idFlag s hs
    obtain ⟨hadd, h3, h4, h5, hF⟩ := steps_fixed_of_noNull hid hnull
    refine ⟨?_, ?_, ?_, ?_, ?_, ?_, by rw [← hem]; exact hflag⟩
    · show finalSweep (preSweep t) = t
      unfold preSweep
      rw [if_pos hem, h5, hF]
    · show (t.hasUserEmailColumn && !t.hasUserIdColumn) = false
      rw [hem, hid]
      rfl
    · show (if t.hasUserEmailColumn then countWhere orphanPred (addUserIdColumn t) else 0) = 0
      rw [if_pos hem, hadd]
      exact horph
    · show (if t.hasUserEmailColumn then countWhere orphanPred (afterStep3 t) else 0) = 0
      rw [if_pos hem, h3]
      exact horph
    · show (if t.hasUserEmailColumn then countWhere nullEmailPred (afterStep4 t) else 0) = 0
      rw [if_pos hem, h4]
      exact hnem
    · show countWhere nullIdPred (preSweep t) = 0
      unfold preSweep
      rw [if_pos hem, h5]
      exact hnid
  | false =>
    refine ⟨?_, ?_, ?_, ?_, ?_, ?_, by rw [← hem]; exact hflag⟩
    · show finalSweep (preSweep t) = t
      unfold preSweep
      rw [if_neg (by simp [hem])]
      unfold finalSweep
      exact condDelete_id_of_none hnull
    · show (t.hasUserEmailColumn && !t.hasUserIdColumn) = false
      rw [hem]
      rfl
    · show (if t.hasUserEmailColumn then countWhere orphanPred (addUserIdColumn t) else 0) = 0
      rw [if_neg (by simp [hem])]
    · show (if t.hasUserEmailColumn then countWhere orphanPred (afterStep3 t) else 0) = 0
      rw [if_neg (by simp [hem])]
    · show (if t.hasUserEmailColumn then countWhere nullEmailPred (afterStep4 t) else 0) = 0
      rw [if_neg (by simp [hem])]
    · show countWhere nullIdPred (preSweep t) = 0
      unfold preSweep
      rw [if_neg (by simp [hem])]
      exact hnid

/-! ### C3: rows whose email matches a user get user_id set -/

theorem nullIdPred_false_of_ne {r : MemberRow} (h : r.user_id ≠ none) :
    nullIdPred r = false := by
  unfold nullIdPred
  cases hu : r.user_id
  · exact absurd hu h
  · rfl

theorem all_false_of_countWhere_zero {p : MemberRow → Bool} {s : DBState}
    (h : countWhere p s = 0) : ∀ r ∈ s.members, p r = false := by
  intro r hr
  have hnil : s.members.filter p = [] := List.length_eq_zero.mp h
  cases hp : p r
  · rfl
  · have : r ∈ s.members.filter p := List.mem_filter.mpr ⟨hr, hp⟩
    rw [hnil] at this
    cases this

/-- C3: For every `workspace_member` row whose `user_id` is null and whose
`user_email` equals the email of an existing user before the run, the routine
sets that row's `user_id` to that user's id (via the correlated per-row
lookup) and does not delete the row: the updated row is present in the final
state. -/
theorem migrate_matched_row_updated (s : DBState) (r : MemberRow) (u : UserRow)
    (hcol : s.hasUserEmailColumn = true)
    (hr : r ∈ s.members)
    (hid : r.user_id = none)
    (hem : r.user_email = some u.email)
    (hu : u ∈ s.users)
    (huniq : ∀ v ∈ s.users, v.email = u.email → v.id = u.id) :
    { r with user_id := some u.id } ∈ (migrateWorkspaceUserEmail s).state.members := by
  have hlook : lookupUserId s.users u.email = some u.id := lookupUserId_of_mem hu huniq
  have hstep : step3Row s r = { r with user_id := some u.id } := by
    obtain ⟨i, em, uid⟩ := r
    simp only at hid hem
    subst hid
    subst hem
    unfold step3Row
    split <;> simp [updateRow, hlook]
  have h3 : ({ r with user_id := some u.id } : MemberRow) ∈ (afterStep3 s).members := by
    rw [afterStep3_members, ← hstep]
    exact List.mem_map_of_mem (step3Row s) hr
  have hne : ({ r with user_id := some u.id } : MemberRow).user_id ≠ none := by
    simp
  have hnid : nullIdPred { r with user_id := some u.id } = false :=
    nullIdPred_false_of_ne hne
  obtain ⟨ho, hn⟩ := predicates_of_notNull hnid
  have h4 : ({ r with user_id := some u.id } : MemberRow) ∈ (afterStep4 s).members :=
    condDelete_mem_of_false ho h3
  have h5 : ({ r with user_id := some u.id } : MemberRow) ∈ (afterStep5 s).members :=
    condDelete_mem_of_false hn h4
  show ({ r with user_id := some u.id } : MemberRow) ∈ (finalSweep (preSweep s)).members
  unfold preSweep
  rw [if_pos hcol]
  exact condDelete_mem_of_false hnid h5

theorem migrate_matched_row_updated_witness :
    ((({ hasUserEmailColumn := true, hasUserIdColumn := false,
         members := [⟨0, some "a@b", none⟩],
         users := [⟨"u1", "a@b"⟩] } : DBState).hasUserEmailColumn = true) ∧
     (⟨0, some "a@b", none⟩ : MemberRow) ∈
       [(⟨0, some "a@b", none⟩ : MemberRow)]) ∧
    (⟨0, some "a@b", some "u1"⟩ : MemberRow) ∈
      (migrateWorkspaceUserEmail
        { hasUserEmailColumn := true, hasUserIdColumn := false,
          members := [⟨0, some "a@b", none⟩],
          users := [⟨"u1", "a@b"⟩] }).state.members :=
  ⟨⟨by decide, by decide⟩,
   migrate_matched_row_updated
     { hasUserEmailColumn := true, hasUserIdColumn := false,
       members := [⟨0, some "a@b", none⟩],
       users := [⟨"u1", "a@b"⟩] }
     ⟨0, some "a@b", none⟩ ⟨"u1", "a@b"⟩
     (by decide) (by decide) (by decide) (by decide) (by decide)
     (by decide)⟩

/-! ### C10: rows with a non-null user_id are untouched -/

/-- C10: Implicit frame property: every `workspace_member` row whose
`user_id` is non-null before the routine runs is left exactly as it was: the
single UPDATE touches only rows with null `user_id`, and all three DELETE
statements match only rows with null `user_id`, so the row itself (unchanged)
is still present in the final state. -/
theorem migrate_preserves_nonnull_rows (s : DBState) (r : MemberRow)
    (hcol : s.hasUserIdColumn = true)
    (hr : r ∈ s.members)
    (hid : r.user_id ≠ none) :
    r ∈ (migrateWorkspaceUserEmail s).state.members := by
  have hnid : nullIdPred r = false := nullIdPred_false_of_ne hid
  obtain ⟨ho, hn⟩ := predicates_of_notNull hnid
  show r ∈ (finalSweep (preSweep s)).members
  unfold preSweep
  cases hem : s.hasUserEmailColumn with
  | true =>
    rw [if_pos rfl]
    have hstep : step3Row s r = r := by
      unfold step3Row
      rw [if_pos hcol]
      exact updateRow_of_some hid
    have h3 : r ∈ (afterStep3 s).members := by
      rw [afterStep3_members, ← hstep]
      exact List.mem_map_of_mem (step3Row s) hr
    have h4 : r ∈ (afterStep4 s).members := condDelete_mem_of_false ho h3
    have h5 : r ∈ (afterStep5 s).members := condDelete_mem_of_false hn h4
    exact condDelete_mem_of_false hnid h5
  | false =>
    rw [if_neg (by simp)]
    exact condDelete_mem_of_false hnid hr

theorem migrate_preserves_nonnull_rows_witness :
    ((({ hasUserEmailColumn := true, hasUserIdColumn := true,
         members := [⟨0, some "a@b", some "u9"⟩, ⟨1, none, none⟩],
         users := [] } : DBState).hasUserIdColumn = true) ∧
     (⟨0, some "a@b", some "u9"⟩ : MemberRow).user_id ≠ none) ∧
    (⟨0, some "a@b", some "u9"⟩ : MemberRow) ∈
      (migrateWorkspaceUserEmail
        { hasUserEmailColumn := true, hasUserIdColumn := true,
          members := [⟨0, some "a@b", some "u9"⟩, ⟨1, none, none⟩],
          users := [] }).state.members :=
  ⟨⟨by decide, by decide⟩,
   migrate_preserves_nonnull_rows
     { hasUserEmailColumn := true, hasUserIdColumn := true,
       members := [⟨0, some "a@b", some "u9"⟩, ⟨1, none, none⟩],
       users := [] }
     ⟨0, some "a@b", some "u9"⟩ (by decide) (by decide) (by decide)⟩

/-! ### C6: legacy column absent, only the final sweep runs -/

/-- C6: If the `workspace_member` table has no `user_email` column, the
routine performs no DDL (no column added) and no update, reports no orphan or
null-email deletions, and its only possible mutation is the final deletion of
rows with null `user_id` (step 7): the schema flags and the `user` table are
unchanged and the member rows are exactly the original ones minus the
null-`user_id` rows. -/
theorem migrate_no_legacy_column (s : DBState)
    (h : s.hasUserEmailColumn = false) :
    (migrateWorkspaceUserEmail s).addedUserIdColumn = false ∧
    (migrateWorkspaceUserEmail s).updatedCount = 0 ∧
    (migrateWorkspaceUserEmail s).orphanedDeleted = 0 ∧
    (migrateWorkspaceUserEmail s).nullEmailDeleted = 0 ∧
    (migrateWorkspaceUserEmail s).state.hasUserEmailColumn = s.hasUserEmailColumn ∧
    (migrateWorkspaceUserEmail s).state.hasUserIdColumn = s.hasUserIdColumn ∧
    (migrateWorkspaceUserEmail s).state.users = s.users ∧
    (migrateWorkspaceUserEmail s).state.members =
      s.members.filter (fun r => !(nullIdPred r)) := by
  have hpre : preSweep s = s := by
    unfold preSweep
    rw [if_neg (by simp [h])]
  refine ⟨?_, ?_, ?_, ?_, migrate_state_emailFlag s, ?_, migrate_state_users s, ?_⟩
  · show (s.hasUserEmailColumn && !s.hasUserIdColumn) = false
    rw [h]
    rfl
  · show (if s.hasUserEmailColumn then countWhere orphanPred (addUserIdColumn s) else 0) = 0
    rw [if_neg (by simp [h])]
  · show (if s.hasUserEmailColumn then countWhere orphanPred (afterStep3 s) else 0) = 0
    rw [if_neg (by simp [h])]
  · show (if s.hasUserEmailColumn then countWhere nullEmailPred (afterStep4 s) else 0) = 0
    rw [if_neg (by simp [h])]
  · show (finalSweep (preSweep s)).hasUserIdColumn = s.hasUserIdColumn
    unfold finalSweep
    rw [(condDelete_flags _ _).2.1, hpre]
  · show (finalSweep (preSweep s)).members = s.members.filter (fun r => !(nullIdPred r))
    rw [hpre]
    unfold finalSweep condDelete
    split
    · rfl
    · rename_i hc
      have hz : countWhere nullIdPred s = 0 := Nat.eq_zero_of_not_pos hc
      have hall := all_false_of_countWhere_zero hz
      exact (filter_all_true (fun r hr => by simp [hall r hr])).symm

theorem migrate_no_legacy_column_witness :
    ((({ hasUserEmailColumn := false, hasUserIdColumn := true,
         members := [⟨0, none, some "u1"⟩, ⟨1, none, none⟩],
         users := [⟨"u1", "a@b"⟩] } : DBState).hasUserEmailColumn = false) ∧
     (migrateWorkspaceUserEmail
       { hasUserEmailColumn := false, hasUserIdColumn := true,
         members := [⟨0, none, some "u1"⟩, ⟨1, none, none⟩],
         users := [⟨"u1", "a@b"⟩] }).state.members =
       [⟨0, none, some "u1"⟩]) ∧
    (migrateWorkspaceUserEmail
      { hasUserEmailColumn := false, hasUserIdColumn := true,
        members := [⟨0, none, some "u1"⟩, ⟨1, none, none⟩],
        users := [⟨"u1", "a@b"⟩] }).addedUserIdColumn = false ∧
    (migrateWorkspaceUserEmail
      { hasUserEmailColumn := false, hasUserIdColumn := true,
        members := [⟨0, none, some "u1"⟩, ⟨1, none, none⟩],
        users := [⟨"u1", "a@b"⟩] }).updatedCount = 0 ∧
    (migrateWorkspaceUserEmail
      { hasUserEmailColumn := false, hasUserIdColumn := true,
        members := [⟨0, none, some "u1"⟩, ⟨1, none, none⟩],
        users := [⟨"u1", "a@b"⟩] }).orphanedDeleted = 0 ∧
    (migrateWorkspaceUserEmail
      { hasUserEmailColumn := false, hasUserIdColumn := true,
        members := [⟨0, none, some "u1"⟩, ⟨1, none, none⟩],
        users := [⟨"u1", "a@b"⟩] }).nullEmailDeleted = 0 ∧
    (migrateWorkspaceUserEmail
      { hasUserEmailColumn := false, hasUserIdColumn := true,
        members := [⟨0, none, some "u1"⟩, ⟨1, none, none⟩],
        users := [⟨"u1", "a@b"⟩] }).state.hasUserIdColumn = true :=
  ⟨⟨by decide, by decide⟩,
   (migrate_no_legacy_column
     { hasUserEmailColumn := false, hasUserIdColumn := true,
       members := [⟨0, none, some "u1"⟩, ⟨1, none, none⟩],
       users := [⟨"u1", "a@b"⟩] } (by decide)).1,
   (migrate_no_legacy_column
     { hasUserEmailColumn := false, hasUserIdColumn := true,
       members := [⟨0, none, some "u1"⟩, ⟨1, none, none⟩],
       users := [⟨"u1", "a@b"⟩] } (by decide)).2.1,
   (migrate_no_legacy_column
     { hasUserEmailColumn := false, hasUserIdColumn := true,
       members := [⟨0, none, some "u1"⟩, ⟨1, none, none⟩],
       users := [⟨"u1", "a@b"⟩] } (by decide)).2.2.1,
   (migrate_no_legacy_column
     { hasUserEmailColumn := false, hasUserIdColumn := true,
       members := [⟨0, none, some "u1"⟩, ⟨1, none, none⟩],
       users := [⟨"u1", "a@b"⟩] } (by decide)).2.2.2.1,
   by decide⟩

/-! ### C4: orphaned rows are deleted -/

theorem countWhere_pos_of_mem {p : MemberRow → Bool} {s : DBState} {r : MemberRow}
    (hr : r ∈ s.members) (hp : p r = true) : countWhere p s > 0 := by
  have : r ∈ s.members.filter p := List.mem_filter.mpr ⟨hr, hp⟩
  unfold countWhere
  exact List.length_pos.mpr (List.ne_nil_of_mem this)

theorem afterStep3_mem_exists {s : DBState} {q : MemberRow}
    (h : q ∈ (afterStep3 s).members) : ∃ r0 ∈ s.members, q = step3Row s r0 := by
  rw [afterStep3_members] at h
  obtain ⟨r0, hr0, heq⟩ := List.mem_map.mp h
  exact ⟨r0, hr0, heq.symm⟩

/-- C4: For every `workspace_member` row that, before the run, has a non-null
`user_email` matching no user's email and a null `user_id`, the routine
deletes the row (the reported orphan count is positive, and no row with its
identity survives into the final state). -/
theorem migrate_orphan_row_deleted (s : DBState) (r : MemberRow) (e : String)
    (hcol : s.hasUserEmailColumn = true)
    (hr : r ∈ s.members)
    (hid : r.user_id = none)
    (hem : r.user_email = some e)
    (hnou : ∀ u ∈ s.users, u.email ≠ e)
    (huniq : ∀ q ∈ s.members, q.rowId = r.rowId → q = r) :
    (migrateWorkspaceUserEmail s).orphanedDeleted > 0 ∧
    ∀ q ∈ (migrateWorkspaceUserEmail s).state.members, q.rowId ≠ r.rowId := by
  have hlook : lookupUserId s.users e = none := lookupUserId_none hnou
  have hstep : step3Row s r = r := by
    obtain ⟨i, em, uid⟩ := r
    simp only at hid hem
    subst hid
    subst hem
    unfold step3Row
    split <;> simp [updateRow, hlook]
  have horph : orphanPred r = true := by
    simp [orphanPred, hid, hem]
  have h3mem : r ∈ (afterStep3 s).members := by
    rw [afterStep3_members, ← hstep]
    exact List.mem_map_of_mem (step3Row s) hr
  have hpos : countWhere orphanPred (afterStep3 s) > 0 :=
    countWhere_pos_of_mem h3mem horph
  constructor
  · show (if s.hasUserEmailColumn then countWhere orphanPred (afterStep3 s) else 0) > 0
    rw [if_pos hcol]
    exact hpos
  · intro q hq hqid
    have hq5 : q ∈ (afterStep5 s).members := by
      have : q ∈ (preSweep s).members := condDelete_subset hq
      rwa [preSweep, if_pos hcol] at this
    have hq4 : q ∈ (afterStep4 s).members := condDelete_subset hq5
    have hqorph : orphanPred q = false := condDelete_pred_false hq4
    have hq3 : q ∈ (afterStep3 s).members := condDelete_subset hq4
    obtain ⟨r0, hr0, hq0⟩ := afterStep3_mem_exists hq3
    have hr0id : r0.rowId = r.rowId := by
      rw [← hqid, hq0, step3Row_rowId]
    have hr0r : r0 = r := huniq r0 hr0 hr0id
    rw [hq0, hr0r, hstep] at hqorph
    rw [horph] at hqorph
    cases hqorph

theorem migrate_orphan_row_deleted_witness :
    ((∀ u ∈ [(⟨"u1", "a@b"⟩ : UserRow)], u.email ≠ "x@y") ∧
     (∀ q ∈ [(⟨0, some "x@y", none⟩ : MemberRow), ⟨1, some "a@b", some "u1"⟩],
        q.rowId = 0 → q = ⟨0, some "x@y", none⟩)) ∧
    (migrateWorkspaceUserEmail
      { hasUserEmailColumn := true, hasUserIdColumn := true,
        members := [⟨0, some "x@y", none⟩, ⟨1, some "a@b", some "u1"⟩],
        users := [⟨"u1", "a@b"⟩] }).orphanedDeleted > 0 ∧
    ∀ q ∈ (migrateWorkspaceUserEmail
      { hasUserEmailColumn := true, hasUserIdColumn := true,
        members := [⟨0, some "x@y", none⟩, ⟨1, some "a@b", some "u1"⟩],
        users := [⟨"u1", "a@b"⟩] }).state.members, q.rowId ≠ 0 :=
  ⟨⟨by decide, by decide⟩,
   migrate_orphan_row_deleted
     { hasUserEmailColumn := true, hasUserIdColumn := true,
       members := [⟨0, some "x@y", none⟩, ⟨1, some "a@b", some "u1"⟩],
       users := [⟨"u1", "a@b"⟩] }
     ⟨0, some "x@y", none⟩ "x@y"
     (by decide) (by decide) (by decide) (by decide) (by decide) (by decide)⟩

/-! ### C5: null/empty-email rows

The claim states that every row with null `user_id` and null-or-empty
`user_email` is deleted at step 5.  On the code this fails for the
empty-string case: a row with `user_email = ''` satisfies
`user_email IS NOT NULL`, so the UPDATE of step 3 touches it and, when no
user carries the empty email, the orphan DELETE of step 4 removes it before
step 5 ever counts it.  Step 5 therefore reports zero such rows. -/

theorem migrate_emptyEmail_deleted_at_step4_not_step5 :
    (migrateWorkspaceUserEmail
      { hasUserEmailColumn := true, hasUserIdColumn := true,
        members := [⟨0, some "", none⟩], users := [] }).nullEmailDeleted = 0 ∧
    (migrateWorkspaceUserEmail
      { hasUserEmailColumn := true, hasUserIdColumn := true,
        members := [⟨0, some "", none⟩], users := [] }).orphanedDeleted = 1 ∧
    (afterStep4
      { hasUserEmailColumn := true, hasUserIdColumn := true,
        members := [⟨0, some "", none⟩], users := [] }).members = [] ∧
    (migrateWorkspaceUserEmail
      { hasUserEmailColumn := true, hasUserIdColumn := true,
        members := [⟨0, some "", none⟩], users := [] }).state.members = [] := by
  decide

/-- C5 (amended): For every `workspace_member` row that, before the run, has
a null `user_id` and a null `user_email`, the routine deletes the row at
step 5 (the reported step-5 count is positive, and no row with its identity
survives step 5 or the final state).  Rows with an empty-string `user_email`
are instead handled by steps 3-4. -/
theorem migrate_nullEmail_row_deleted_at_step5 (s : DBState) (r : MemberRow)
    (hcol : s.hasUserEmailColumn = true)
    (hr : r ∈ s.members)
    (hid : r.user_id = none)
    (hem : r.user_email = none)
    (huniq : ∀ q ∈ s.members, q.rowId = r.rowId → q = r) :
    (migrateWorkspaceUserEmail s).nullEmailDeleted > 0 ∧
    (∀ q ∈ (afterStep5 s).members, q.rowId ≠ r.rowId) ∧
    (∀ q ∈ (migrateWorkspaceUserEmail s).state.members, q.rowId ≠ r.rowId) := by
  have hstep : step3Row s r = r := by
    obtain ⟨i, em, uid⟩ := r
    simp only at hid hem
    subst hid
    subst hem
    unfold step3Row
    split <;> simp [updateRow]
  have horph : orphanPred r = false := by
    simp [orphanPred, hem]
  have hnem : nullEmailPred r = true := by
    simp [nullEmailPred, emailNullOrEmpty, hid, hem]
  have h3mem : r ∈ (afterStep3 s).members := by
    rw [afterStep3_members, ← hstep]
    exact List.mem_map_of_mem (step3Row s) hr
  have h4mem : r ∈ (afterStep4 s).members := condDelete_mem_of_false horph h3mem
  have hpos : countWhere nullEmailPred (afterStep4 s) > 0 :=
    countWhere_pos_of_mem h4mem hnem
  have hgone : ∀ q ∈ (afterStep5 s).members, q.rowId ≠ r.rowId := by
    intro q hq hqid
    have hqnem : nullEmailPred q = false := condDelete_pred_false hq
    have hq4 : q ∈ (afterStep4 s).members := condDelete_subset hq
    have hq3 : q ∈ (afterStep3 s).members := condDelete_subset hq4
    obtain ⟨r0, hr0, hq0⟩ := afterStep3_mem_exists hq3
    have hr0id : r0.rowId = r.rowId := by
      rw [← hqid, hq0, step3Row_rowId]
    have hr0r : r0 = r := huniq r0 hr0 hr0id
    rw [hq0, hr0r, hstep] at hqnem
    rw [hnem] at hqnem
    cases hqnem
  refine ⟨?_, hgone, ?_⟩
  · show (if s.hasUserEmailColumn then countWhere nullEmailPred (afterStep4 s) else 0) > 0
    rw [if_pos hcol]
    exact hpos
  · intro q hq
    have : q ∈ (preSweep s).members := condDelete_subset hq
    rw [preSweep, if_pos hcol] at this
    exact hgone q this

theorem migrate_nullEmail_row_deleted_at_step5_witness :
    ((∀ q ∈ [(⟨0, none, none⟩ : MemberRow), ⟨1, some "a@b", none⟩],
        q.rowId = 0 → q = ⟨0, none, none⟩)) ∧
    (migrateWorkspaceUserEmail
      { hasUserEmailColumn := true, hasUserIdColumn := true,
        members := [⟨0, none, none⟩, ⟨1, some "a@b", none⟩],
        users := [⟨"u1", "a@b"⟩] }).nullEmailDeleted > 0 ∧
    ∀ q ∈ (migrateWorkspaceUserEmail
      { hasUserEmailColumn := true, hasUserIdColumn := true,
        members := [⟨0, none, none⟩, ⟨1, some "a@b", none⟩],
        users := [⟨"u1", "a@b"⟩] }).state.members, q.rowId ≠ 0 :=
  ⟨by decide,
   (migrate_nullEmail_row_deleted_at_step5
     { hasUserEmailColumn := true, hasUserIdColumn := true,
       members := [⟨0, none, none⟩, ⟨1, some "a@b", none⟩],
       users := [⟨"u1", "a@b"⟩] }
     ⟨0, none, none⟩
     (by decide) (by decide) (by decide) (by decide) (by decide)).1,
   (migrate_nullEmail_row_deleted_at_step5
     { hasUserEmailColumn := true, hasUserIdColumn := true,
       members := [⟨0, none, none⟩, ⟨1, some "a@b", none⟩],
       users := [⟨"u1", "a@b"⟩] }
     ⟨0, none, none⟩
     (by decide) (by decide) (by decide) (by decide) (by decide)).2.2⟩

/-! ### C7: error propagation

Each `db.execute` of the routine is numbered in source order (0 = legacy
column check, 1 = conditional ADD COLUMN, 2 = UPDATE, 3/4 = orphan
COUNT/DELETE, 5/6 = null-email COUNT/DELETE, 7/8 = final COUNT/DELETE).  An
oracle assigns each statement index a possible database error; `dbStmt`
returns the statement's result when the oracle is silent and the error
otherwise.  The `try`/`catch` of the source becomes `migrateWithLogging`:
it logs and rethrows the caught error unmodified. -/

def dbStmt {α : Type} (oracle : Nat → Option String) (i : Nat) (a : α) :
    Except String α :=
  match oracle i with
  | some e => Except.error e
  | none => Except.ok a

/-- The legacy-column branch (statements 1-6) with error instrumentation. -/
def legacyBranchE (oracle : Nat → Option String) (s : DBState) :
    Except String DBState :=
  if s.hasUserEmailColumn then
    match dbStmt oracle 1 (addUserIdColumn s) with
    | Except.error e => Except.error e
    | Except.ok s1 =>
      match dbStmt oracle 2 (applyUpdate s1) with
      | Except.error e => Except.error e
      | Except.ok s2 =>
        match dbStmt oracle 3 (countWhere orphanPred s2) with
        | Except.error e => Except.error e
        | Except.ok n =>
          match (if n > 0 then dbStmt oracle 4 (deleteWhere orphanPred s2)
                 else Except.ok s2) with
          | Except.error e => Except.error e
          | Except.ok s3 =>
            match dbStmt oracle 5 (countWhere nullEmailPred s3) with
            | Except.error e => Except.error e
            | Except.ok m =>
              if m > 0 then dbStmt oracle 6 (deleteWhere nullEmailPred s3)
              else Except.ok s3
  else Except.ok s

/-- The whole routine with error instrumentation: statement 0 (the column
check), the legacy branch, then the final sweep (statements 7-8). -/
def migrateWorkspaceUserEmailE (oracle : Nat → Option String) (s : DBState) :
    Except String DBState :=
  match dbStmt oracle 0 () with
  | Except.error e => Except.error e
  | Except.ok _ =>
    match legacyBranchE oracle s with
    | Except.error e => Except.error e
    | Except.ok s1 =>
      match dbStmt oracle 7 (countWhere nullIdPred s1) with
      | Except.error e => Except.error e
      | Except.ok k =>
        if k > 0 then dbStmt oracle 8 (deleteWhere nullIdPred s1)
        else Except.ok s1

/-- The `try`/`catch` wrapper: on error, log with context and rethrow the
same error unmodified (`throw error`); on success, return. -/
def migrateWithLogging (oracle : Nat → Option String) (s : DBState) :
    Except String DBState :=
  match migrateWorkspaceUserEmailE oracle s with
  | Except.error e => Except.error e
  | Except.ok t => Except.ok t

theorem dbStmt_error {α : Type} {oracle : Nat → Option String} {i : Nat}
    {a : α} {e : String} (h : dbStmt oracle i a = Except.error e) :
    oracle i = some e := by
  unfold dbStmt at h
  cases ho : oracle i
  · rw [ho] at h
    cases h
  · rw [ho] at h
    cases h
    rfl

theorem dbStmt_none {α : Type} {oracle : Nat → Option String} {i : Nat}
    (h : oracle i = none) (a : α) : dbStmt oracle i a = Except.ok a := by
  unfold dbStmt
  rw [h]

theorem condDelete_ok (p : MemberRow → Bool) (t : DBState) :
    (if countWhere p t > 0 then (Except.ok (deleteWhere p t) : Except String DBState)
     else Except.ok t) = Except.ok (condDelete p t) := by
  unfold condDelete
  by_cases h : countWhere p t > 0
  · rw [if_pos h, if_pos h]
  · rw [if_neg h, if_neg h]

theorem legacyBranchE_error {oracle : Nat → Option String} {s : DBState}
    {e : String} (h : legacyBranchE oracle s = Except.error e) :
    ∃ i, oracle i = some e := by
  unfold legacyBranchE at h
  split at h
  · split at h
    · rename_i heq1
      cases h
      exact ⟨1, dbStmt_error heq1⟩
    · split at h
      · rename_i heq2
        cases h
        exact ⟨2, dbStmt_error heq2⟩
      · split at h
        · rename_i heq3
          cases h
          exact ⟨3, dbStmt_error heq3⟩
        · split at h
          · rename_i heq4
            cases h
            split at heq4
            · exact ⟨4, dbStmt_error heq4⟩
            · cases heq4
          · split at h
            · rename_i heq5
              cases h
              exact ⟨5, dbStmt_error heq5⟩
            · split at h
              · exact ⟨6, dbStmt_error h⟩
              · cases h
  · cases h

theorem legacyBranchE_silent {oracle : Nat → Option String} {s : DBState}
    (hnone : ∀ i, oracle i = none) :
    legacyBranchE oracle s = Except.ok (preSweep s) := by
  unfold legacyBranchE preSweep
  by_cases hcol : s.hasUserEmailColumn = true
  · rw [if_pos hcol, if_pos hcol]
    simp only [dbStmt_none (hnone 1), dbStmt_none (hnone 2), dbStmt_none (hnone 3),
               dbStmt_none (hnone 4), dbStmt_none (hnone 5), dbStmt_none (hnone 6),
               condDelete_ok]
    rfl
  · rw [if_neg hcol, if_neg hcol]

theorem migrateE_silent {oracle : Nat → Option String} {s : DBState}
    (hnone : ∀ i, oracle i = none) :
    migrateWorkspaceUserEmailE oracle s =
      Except.ok (migrateWorkspaceUserEmail s).state := by
  unfold migrateWorkspaceUserEmailE
  simp only [dbStmt_none (hnone 0), legacyBranchE_silent hnone,
             dbStmt_none (hnone 7), dbStmt_none (hnone 8), condDelete_ok]
  rfl

/-- The error raised by the first failing statement the routine reaches, in
execution order, or `none` when every reached statement succeeds: statement 0
always runs; statements 1-6 run only when the legacy column exists, with 4
and 6 guarded by their counts being positive; statement 7 always runs and 8
only when the final count is positive.  Once a statement fails, no later
oracle entry is consulted.  This is the legacy branch's part (statements
1-6). -/
def firstErrorBranch (oracle : Nat → Option String) (s : DBState) :
    Option String :=
  if s.hasUserEmailColumn then
    match oracle 1 with
    | some e => some e
    | none =>
      match oracle 2 with
      | some e => some e
      | none =>
        match oracle 3 with
        | some e => some e
        | none =>
          match (if countWhere orphanPred (afterStep3 s) > 0 then oracle 4
                 else none) with
          | some e => some e
          | none =>
            match oracle 5 with
            | some e => some e
            | none =>
              if countWhere nullEmailPred (afterStep4 s) > 0 then oracle 6
              else none
  else none

/-- The error raised by the first failing statement of the whole routine, in
execution order (see `firstErrorBranch`). -/
def firstError (oracle : Nat → Option String) (s : DBState) : Option String :=
  match oracle 0 with
  | some e => some e
  | none =>
    match firstErrorBranch oracle s with
    | some e => some e
    | none =>
      match oracle 7 with
      | some e => some e
      | none =>
        if countWhere nullIdPred (preSweep s) > 0 then oracle 8 else none

theorem legacyBranchE_characterization (oracle : Nat → Option String)
    (s : DBState) :
    legacyBranchE oracle s =
      (match firstErrorBranch oracle s with
       | some e => Except.error e
       | none => Except.ok (preSweep s)) := by
  unfold legacyBranchE firstErrorBranch preSweep
  by_cases hcol : s.hasUserEmailColumn = true
  · rw [if_pos hcol, if_pos hcol, if_pos hcol]
    simp only [dbStmt]
    cases h1 : oracle 1 with
    | some e1 => simp
    | none =>
      simp only []
      cases h2 : oracle 2 with
      | some e2 => simp
      | none =>
        simp only []
        cases h3 : oracle 3 with
        | some e3 => simp
        | none =>
          simp only [afterStep3]
          by_cases hc4 : countWhere orphanPred (applyUpdate (addUserIdColumn s)) > 0
          · rw [if_pos hc4, if_pos hc4]
            cases h4 : oracle 4 with
            | some e4 => simp
            | none =>
              simp only []
              cases h5 : oracle 5 with
              | some e5 => simp
              | none =>
                simp only []
                have e4 : afterStep4 s =
                    deleteWhere orphanPred (applyUpdate (addUserIdColumn s)) := by
                  unfold afterStep4 condDelete afterStep3
                  rw [if_pos hc4]
                rw [← e4]
                by_cases hc6 : countWhere nullEmailPred (afterStep4 s) > 0
                · rw [if_pos hc6, if_pos hc6]
                  cases h6 : oracle 6 with
                  | some e6 => simp
                  | none =>
                    have e5 : afterStep5 s =
                        deleteWhere nullEmailPred (afterStep4 s) := by
                      unfold afterStep5 condDelete
                      rw [if_pos hc6]
                    rw [e5]
                · rw [if_neg hc6, if_neg hc6]
                  have e5 : afterStep5 s = afterStep4 s := by
                    unfold afterStep5 condDelete
                    rw [if_neg hc6]
                  rw [e5]
          · rw [if_neg hc4, if_neg hc4]
            simp only []
            cases h5 : oracle 5 with
            | some e5 => simp
            | none =>
              simp only []
              have e4 : afterStep4 s = applyUpdate (addUserIdColumn s) := by
                unfold afterStep4 condDelete afterStep3
                rw [if_neg hc4]
              rw [← e4]
              by_cases hc6 : countWhere nullEmailPred (afterStep4 s) > 0
              · rw [if_pos hc6, if_pos hc6]
                cases h6 : oracle 6 with
                | some e6 => simp
                | none =>
                  have e5 : afterStep5 s =
                      deleteWhere nullEmailPred (afterStep4 s) := by
                    unfold afterStep5 condDelete
                    rw [if_pos hc6]
                  rw [e5]
              · rw [if_neg hc6, if_neg hc6]
                have e5 : afterStep5 s = afterStep4 s := by
                  unfold afterStep5 condDelete
                  rw [if_neg hc6]
                rw [e5]
  · rw [if_neg hcol, if_neg hcol, if_neg hcol]

theorem migrateE_characterization (oracle : Nat → Option String) (s : DBState) :
    migrateWorkspaceUserEmailE oracle s =
      (match firstError oracle s with
       | some e => Except.error e
       | none => Except.ok (migrateWorkspaceUserEmail s).state) := by
  unfold migrateWorkspaceUserEmailE firstError
  simp only [dbStmt]
  cases h0 : oracle 0 with
  | some e0 => simp
  | none =>
    simp only []
    rw [legacyBranchE_characterization]
    cases hb : firstErrorBranch oracle s with
    | some eb => simp
    | none =>
      simp only []
      cases h7 : oracle 7 with
      | some e7 => simp
      | none =>
        simp only []
        by_cases hc8 : countWhere nullIdPred (preSweep s) > 0
        · rw [if_pos hc8, if_pos hc8]
          cases h8 : oracle 8 with
          | some e8 => simp
          | none =>
            have eF : (migrateWorkspaceUserEmail s).state =
                deleteWhere nullIdPred (preSweep s) := by
              show finalSweep (preSweep s) = _
              unfold finalSweep condDelete
              rw [if_pos hc8]
            rw [eF]
        · rw [if_neg hc8, if_neg hc8]
          have eF : (migrateWorkspaceUserEmail s).state = preSweep s := by
            show finalSweep (preSweep s) = _
            unfold finalSweep condDelete
            rw [if_neg hc8]
          rw [eF]

/-- C7: If any database statement inside the reconciliation routine raises an
error, the routine rethrows the same error unmodified to its caller; no step
is retried and no later step runs.  Conjunct 1: the `catch` clause is the
identity on outcomes (log + rethrow the caught error).  Conjunct 2: the
routine's outcome is fully characterised by the first failing statement in
execution order: whichever statement (0-8) is reached first with a failing
oracle entry, the routine returns exactly that error, never consulting any
later statement; and when every reached statement succeeds, the routine
completes with the pure routine's final state.  Conjunct 3: any error the
routine returns is one some database statement raised.  Conjunct 4: an
error-free run completes with the pure routine's final state. -/
theorem migrate_error_propagation (oracle : Nat → Option String) (s : DBState) :
    migrateWithLogging oracle s = migrateWorkspaceUserEmailE oracle s ∧
    migrateWorkspaceUserEmailE oracle s =
      (match firstError oracle s with
       | some e => Except.error e
       | none => Except.ok (migrateWorkspaceUserEmail s).state) ∧
    (∀ e, migrateWorkspaceUserEmailE oracle s = Except.error e →
      ∃ i, oracle i = some e) ∧
    ((∀ i, oracle i = none) →
      migrateWorkspaceUserEmailE oracle s =
        Except.ok (migrateWorkspaceUserEmail s).state) := by
  refine ⟨?_, migrateE_characterization oracle s, ?_,
    fun hnone => migrateE_silent hnone⟩
  · unfold migrateWithLogging
    cases migrateWorkspaceUserEmailE oracle s <;> rfl
  · intro e h
    unfold migrateWorkspaceUserEmailE at h
    split at h
    · rename_i heq0
      cases h
      exact ⟨0, dbStmt_error heq0⟩
    · split at h
      · rename_i heqb
        cases h
        exact legacyBranchE_error heqb
      · split at h
        · rename_i heq7
          cases h
          exact ⟨7, dbStmt_error heq7⟩
        · split at h
          · exact ⟨8, dbStmt_error h⟩
          · cases h

theorem migrate_error_propagation_witness :
    migrateWithLogging (fun j => if j = 5 then some "db boom" else none)
      { hasUserEmailColumn := true, hasUserIdColumn := true,
        members := [⟨0, some "a@b", none⟩], users := [⟨"u1", "a@b"⟩] } =
      Except.error "db boom" ∧
    (∃ i, (fun j => if j = 5 then some "db boom" else none) i =
      some "db boom") := by
  have h := migrate_error_propagation
    (fun j => if j = 5 then some "db boom" else none)
    { hasUserEmailColumn := true, hasUserIdColumn := true,
      members := [⟨0, some "a@b", none⟩], users := [⟨"u1", "a@b"⟩] }
  constructor
  · rw [h.1, h.2.1]
    rfl
  · exact h.2.2.1 "db boom" (by rw [h.2.1]; rfl)

/-! ### The priority selector widget (`TaskPriorityPopover`)

A task is a record whose `priority` field the widget changes; all its other
attributes are abstracted into `rest`, so that the spread
`{ ...task, priority: newPriority }` becomes a record update preserving
`rest`.  The external update mutation is an oracle from the sent payload to
an outcome: the promise resolves, rejects with an `Error` instance carrying a
message, or rejects with a non-`Error` value.  Everything lives in the
`Kaneo` namespace because `Task` already names a core Lean type. -/

namespace Kaneo

/-- A task: its `priority` string plus all other attributes (`rest`). -/
structure Task (α : Type) where
  priority : String
  rest : α
deriving Repr, DecidableEq

/-- The five fixed, ordered priority options (value, label). -/
def priorityOptions : List (String × String) :=
  [("no-priority", "No Priority"), ("low", "Low"), ("medium", "Medium"),
   ("high", "High"), ("urgent", "Urgent")]

/-- Whether the checkmark is rendered next to the option with the given
value: `task.priority === priority.value`. -/
def showsCheckmark {α : Type} (task : Task α) (optionValue : String) : Bool :=
  task.priority == optionValue

/-- Outcome of the awaited `updateTask` call. -/
inductive UpdateOutcome where
  | resolved
  | rejectedError (msg : String)
  | rejectedOther
deriving Repr, DecidableEq

/-- The payload `{ ...task, priority: newPriority }` sent to the update. -/
def updatePayload {α : Type} (task : Task α) (newPriority : String) : Task α :=
  { task with priority := newPriority }

/-- Observable result of one invocation of `handlePriorityChange`: the
popover's open flag afterwards, the toast message if one was raised, and the
payload passed to `updateTask`. -/
structure HandlerResult (α : Type) where
  popoverOpen : Bool
  toastMessage : Option String
  sentPayload : Task α
deriving Repr, DecidableEq

/-- `handlePriorityChange`: send the spread payload to `updateTask`; on
resolution call `setOpen(false)`; on rejection toast the error's message when
it is an `Error` instance and the generic fallback otherwise, leaving the
open state untouched. -/
def handlePriorityChange {α : Type} (updateTask : Task α → UpdateOutcome)
    (task : Task α) (newPriority : String) (popoverOpen : Bool) :
    HandlerResult α :=
  match updateTask (updatePayload task newPriority) with
  | UpdateOutcome.resolved => ⟨false, none, updatePayload task newPriority⟩
  | UpdateOutcome.rejectedError m =>
      ⟨popoverOpen, some m, updatePayload task newPriority⟩
  | UpdateOutcome.rejectedOther =>
      ⟨popoverOpen, some "Failed to update task priority",
       updatePayload task newPriority⟩

/-- C8: For every task and every selected option P among the five fixed
ordered options, the widget shows a checkmark exactly next to the option
whose value equals the task's current priority, and selecting P invokes the
external update with the task's full current attribute set overridden by
`priority = P` (the `rest` attributes are preserved); if the update resolves,
the popover is closed. -/
theorem widget_select_priority {α : Type} (task : Task α)
    (updateTask : Task α → UpdateOutcome) (opt : String × String)
    (popoverOpen : Bool) (hopt : opt ∈ priorityOptions) :
    priorityOptions.length = 5 ∧
    (∀ o ∈ priorityOptions,
      showsCheckmark task o.1 = true ↔ task.priority = o.1) ∧
    (handlePriorityChange updateTask task opt.1 popoverOpen).sentPayload =
      { task with priority := opt.1 } ∧
    (handlePriorityChange updateTask task opt.1 popoverOpen).sentPayload.rest =
      task.rest ∧
    (handlePriorityChange updateTask task opt.1 popoverOpen).sentPayload.priority =
      opt.1 ∧
    (updateTask (updatePayload task opt.1) = UpdateOutcome.resolved →
      (handlePriorityChange updateTask task opt.1 popoverOpen).popoverOpen = false) := by
  refine ⟨rfl, ?_, ?_, ?_, ?_, ?_⟩
  · intro o _
    unfold showsCheckmark
    exact beq_iff_eq
  · unfold handlePriorityChange
    cases updateTask (updatePayload task opt.1) <;> rfl
  · unfold handlePriorityChange
    cases updateTask (updatePayload task opt.1) <;> rfl
  · unfold handlePriorityChange
    cases updateTask (updatePayload task opt.1) <;> rfl
  · intro hres
    unfold handlePriorityChange
    rw [hres]

theorem widget_select_priority_witness :
    (("urgent", "Urgent") ∈ priorityOptions ∧
     (fun _ => UpdateOutcome.resolved)
       (updatePayload (Task.mk "low" 7) "urgent") = UpdateOutcome.resolved) ∧
    (∀ o ∈ priorityOptions,
      showsCheckmark (Task.mk "low" 7) o.1 = true ↔ "low" = o.1) ∧
    (handlePriorityChange (fun _ => UpdateOutcome.resolved)
      (Task.mk "low" 7) "urgent" true).sentPayload = Task.mk "urgent" 7 ∧
    (handlePriorityChange (fun _ => UpdateOutcome.resolved)
      (Task.mk "low" 7) "urgent" true).popoverOpen = false :=
  ⟨⟨by decide, by decide⟩,
   (widget_select_priority (Task.mk "low" (7 : Nat))
      (fun _ => UpdateOutcome.resolved) ("urgent", "Urgent") true
      (by decide)).2.1,
   (widget_select_priority (Task.mk "low" (7 : Nat))
      (fun _ => UpdateOutcome.resolved) ("urgent", "Urgent") true
      (by decide)).2.2.1,
   (widget_select_priority (Task.mk "low" (7 : Nat))
      (fun _ => UpdateOutcome.resolved) ("urgent", "Urgent") true
      (by decide)).2.2.2.2.2 (by decide)⟩

/-- C9: For every selection on which the update mutation rejects, the widget
produces a user-facing notification containing the rejection error's message
when the error carries one (an `Error` instance), and the generic fallback
message otherwise; the popover's open state is not changed by the failure
(it stays as it was, in particular open). -/
theorem widget_failure_toast {α : Type} (task : Task α)
    (updateTask : Task α → UpdateOutcome) (newPriority : String)
    (popoverOpen : Bool) (m : String) :
    (updateTask (updatePayload task newPriority) = UpdateOutcome.rejectedError m →
      handlePriorityChange updateTask task newPriority popoverOpen =
        ⟨popoverOpen, some m, updatePayload task newPriority⟩) ∧
    (updateTask (updatePayload task newPriority) = UpdateOutcome.rejectedOther →
      handlePriorityChange updateTask task newPriority popoverOpen =
        ⟨popoverOpen, some "Failed to update task priority",
         updatePayload task newPriority⟩) := by
  constructor
  · intro hrej
    unfold handlePriorityChange
    rw [hrej]
  · intro hrej
    unfold handlePriorityChange
    rw [hrej]

theorem widget_failure_toast_witness :
    ((fun _ => UpdateOutcome.rejectedError "Network error")
       (updatePayload (Task.mk "low" 7) "urgent") =
       UpdateOutcome.rejectedError "Network error") ∧
    handlePriorityChange (fun _ => UpdateOutcome.rejectedError "Network error")
      (Task.mk "low" 7) "urgent" true =
      ⟨true, some "Network error", Task.mk "urgent" 7⟩ :=
  ⟨by decide,
   (widget_failure_toast (Task.mk "low" (7 : Nat))
      (fun _ => UpdateOutcome.rejectedError "Network error") "urgent" true
      "Network error").1 (by decide)⟩

end Kaneo
